import Mathlib

/-!
A verification development for the TailorTalk appointment-booking assistant
(`app.py`, `backend.py`, `tailortalk-backend/api.py`): a shallow embedding of
the intent-routing / slot-matching pipeline and of the backend's availability
computation, with theorems settling the specification's claims about them.

Conventions of the embedding:

* Instants are minutes since 0001-01-01 00:00 UTC in the proleptic Gregorian
  calendar; a calendar day is 1440 minutes.  The display zone Asia/Kolkata is
  a fixed UTC+5:30 offset (330 minutes), so `astimezone` followed by reading
  wall-clock fields is pure arithmetic on the instant.
* User messages are lists of characters; where a Python handler first applies
  `.strip().lower()`, the embedding does the same via `lowerStrip`.
* The two external collaborators (the language model and the calendar REST
  backend) are modelled as oracles: each call site receives the call's
  outcome as an `Except` argument, and every handler returns, next to the
  turns it appends, the explicit trace of outward calls it performed.
-/

namespace TailorTalk

/-- Python `\s` on ASCII text: space, tab, newline, CR, vertical tab, form feed. -/
def isSpaceChar (c : Char) : Bool :=
  c = ' ' || c = '\t' || c = '\n' || c = '\r' || c = '\x0b' || c = '\x0c'

/-- Numeric value of an ASCII digit character. -/
def digitVal (c : Char) : Nat := c.toNat - '0'.toNat

/-- `needle` is a prefix of `hay` (character lists). -/
def hasPrefixChars : List Char → List Char → Bool
  | [], _ => true
  | _ :: _, [] => false
  | n :: ns, h :: hs => n = h && hasPrefixChars ns hs

/-- Python's substring test `needle in hay`. -/
def isSubstr (needle : List Char) : List Char → Bool
  | [] => hasPrefixChars needle []
  | c :: rest => hasPrefixChars needle (c :: rest) || isSubstr needle rest

/-- Python `str.strip()` on a character list (ASCII whitespace). -/
def stripChars (l : List Char) : List Char :=
  ((l.dropWhile isSpaceChar).reverse.dropWhile isSpaceChar).reverse

/-- Python `str.strip()`. -/
def pyStrip (s : String) : String := String.mk (stripChars s.data)

/-- The `.strip().lower()` each handler applies to the last user message. -/
def lowerStrip (msg : List Char) : List Char :=
  (stripChars msg).map Char.toLower

/-- Asia/Kolkata wall-clock hour of a UTC instant given in minutes
(`dt.astimezone(tz).hour` for the fixed +5:30 offset). -/
def istHour (t : Nat) : Nat := (t + 330) % 1440 / 60

/-- Asia/Kolkata wall-clock minute of a UTC instant given in minutes. -/
def istMinute (t : Nat) : Nat := (t + 330) % 60

/-!
## Slot generator (`GET /availability`)

`backend.py` lines 117-131 and `tailortalk-backend/api.py` lines 136-148 run
the identical loop: starting at `start_time`, step 30 minutes while
`current_time < end_time`; keep the instant when its Asia/Kolkata hour lies in
`[9, 18)` and no busy event satisfies `event.start < slot_end and
event.end > current_time`.  A busy event is the pair of its `[start, end)`
instants.  The loop advances 30 minutes per iteration, so `endT - startT`
iterations of fuel are more than enough; `availLoop_eq_filter` and
`mem_strideF`/`strideF_mem_of` characterise it exactly.
-/

/-- `any(slot.start < slot_end and slot.end > current_time for slot in busy)`. -/
def overlapsBusy (busy : List (Nat × Nat)) (slotStart slotEnd : Nat) : Bool :=
  busy.any fun ev => decide (ev.1 < slotEnd) && decide (slotStart < ev.2)

/-- The body filter of the availability loop: business hours and no overlap. -/
def slotAllowed (busy : List (Nat × Nat)) (t : Nat) : Bool :=
  (decide (9 ≤ istHour t) && decide (istHour t < 18)) && !overlapsBusy busy t (t + 30)

/-- The `while current_time < end_time` loop of `get_availability`, with fuel. -/
def availLoop (busy : List (Nat × Nat)) (endT : Nat) : Nat → Nat → List Nat
  | 0, _ => []
  | fuel + 1, cur =>
    if cur < endT then
      (if slotAllowed busy cur then [cur] else []) ++ availLoop busy endT fuel (cur + 30)
    else []

/-- `GET /availability`: the list of free half-hour slot start instants. -/
def get_availability (busy : List (Nat × Nat)) (startT endT : Nat) : List Nat :=
  availLoop busy endT (endT - startT) startT

/-- The bare 30-minute stride `startT, startT + 30, …` below `endT`, with fuel. -/
def strideF (endT : Nat) : Nat → Nat → List Nat
  | 0, _ => []
  | fuel + 1, cur => if cur < endT then cur :: strideF endT fuel (cur + 30) else []

/-- The 30-minute stride instants of `[startT, endT)`. -/
def stride (startT endT : Nat) : List Nat := strideF endT (endT - startT) startT

theorem availLoop_eq_filter (busy : List (Nat × Nat)) (endT : Nat) :
    ∀ fuel cur, availLoop busy endT fuel cur = (strideF endT fuel cur).filter (slotAllowed busy)
  | 0, cur => rfl
  | fuel + 1, cur => by
    by_cases h : cur < endT
    · cases hs : slotAllowed busy cur <;>
        simp [availLoop, strideF, h, hs, availLoop_eq_filter busy endT fuel (cur + 30)]
    · simp [availLoop, strideF, h]

theorem mem_strideF {endT : Nat} :
    ∀ {fuel cur t}, t ∈ strideF endT fuel cur → cur ≤ t ∧ t < endT ∧ 30 ∣ (t - cur)
  | 0, cur, t, h => by simp [strideF] at h
  | fuel + 1, cur, t, h => by
    by_cases hlt : cur < endT
    · simp only [strideF, if_pos hlt, List.mem_cons] at h
      rcases h with rfl | h
      · exact ⟨Nat.le_refl _, hlt, by simp⟩
      · obtain ⟨h1, h2, k, hk⟩ := mem_strideF h
        exact ⟨by omega, h2, ⟨k + 1, by omega⟩⟩
    · simp [strideF, if_neg hlt] at h

theorem strideF_mem_of {endT : Nat} :
    ∀ {fuel cur t}, endT - cur ≤ fuel → cur ≤ t → t < endT → 30 ∣ (t - cur) →
      t ∈ strideF endT fuel cur
  | 0, cur, t, hf, h1, h2, _ => by omega
  | fuel + 1, cur, t, hf, h1, h2, hd => by
    have hlt : cur < endT := by omega
    simp only [strideF, if_pos hlt, List.mem_cons]
    rcases Nat.eq_or_lt_of_le h1 with rfl | hlt'
    · exact Or.inl rfl
    · obtain ⟨k, hk⟩ := hd
      have hk1 : 1 ≤ k := by omega
      refine Or.inr (strideF_mem_of (by omega) (by omega) h2 ⟨k - 1, by omega⟩)

theorem strideF_pairwise {endT : Nat} :
    ∀ fuel cur, (strideF endT fuel cur).Pairwise (fun a b => a < b)
  | 0, _ => by simp [strideF]
  | fuel + 1, cur => by
    by_cases h : cur < endT
    · simp only [strideF, if_pos h, List.pairwise_cons]
      exact ⟨fun b hb => by have := (mem_strideF hb).1; omega,
             strideF_pairwise fuel (cur + 30)⟩
    · simp [strideF, if_neg h]

theorem slotAllowed_iff (busy : List (Nat × Nat)) (t : Nat) :
    slotAllowed busy t = true ↔
      (9 ≤ istHour t ∧ istHour t < 18) ∧ ∀ ev ∈ busy, ¬(ev.1 < t + 30 ∧ t < ev.2) := by
  simp only [slotAllowed, overlapsBusy, Bool.and_eq_true, decide_eq_true_eq,
    Bool.not_eq_true', List.any_eq_false, Bool.and_eq_false_iff, decide_eq_false_iff_not]

/-- C1: every slot instant returned by the slot generator (`GET /availability`)
has Asia/Kolkata local hour in `[9, 18)`, does not overlap any busy event under
the test `event.start < slot_end AND event.end > slot_start` (slot_end = slot +
30 minutes), and the returned list is exactly the ascending 30-minute-stride
instants starting at `startT` that pass both filters. -/
theorem availability_spec (busy : List (Nat × Nat)) (startT endT : Nat) :
    get_availability busy startT endT = (stride startT endT).filter (slotAllowed busy)
    ∧ (get_availability busy startT endT).Pairwise (fun a b => a < b)
    ∧ ∀ t, t ∈ get_availability busy startT endT ↔
        ((startT ≤ t ∧ t < endT ∧ 30 ∣ (t - startT)) ∧
         (9 ≤ istHour t ∧ istHour t < 18) ∧
         ∀ ev ∈ busy, ¬(ev.1 < t + 30 ∧ t < ev.2)) := by
  refine ⟨availLoop_eq_filter busy endT _ startT, ?_, ?_⟩
  · rw [get_availability, availLoop_eq_filter busy endT _ startT]
    exact List.Pairwise.sublist (List.filter_sublist _) (strideF_pairwise _ startT)
  · intro t
    rw [get_availability, availLoop_eq_filter busy endT _ startT, List.mem_filter]
    constructor
    · rintro ⟨hmem, hok⟩
      exact ⟨mem_strideF hmem, (slotAllowed_iff busy t).1 hok⟩
    · rintro ⟨⟨h1, h2, h3⟩, hok⟩
      exact ⟨strideF_mem_of (Nat.le_refl _) h1 h2 h3, (slotAllowed_iff busy t).2 hok⟩

/-- Concrete instance of `availability_spec`: 09:00 IST (03:30 UTC, minute 210
of day 0) is returned for an empty calendar on the range `[210, 300)`. -/
theorem availability_spec_witness : 210 ∈ get_availability [] 210 300 :=
  ((availability_spec [] 210 300).2.2 210).2
    ⟨⟨Nat.le_refl 210, by decide, ⟨0, rfl⟩⟩, ⟨by decide, by decide⟩, by decide⟩

/-!
## Date/time expression parser (`parse_user_date`, app.py lines 95-141)

Rules 1-2: the first key of `day_map` (in insertion order `today`, `tomorrow`,
`monday` … `sunday`) that is a substring of the lowercased message resolves to
a full 24-hour UTC day.  Rule 3: a `re.search` for
`(january|…|december)\s+(\d{1,2}),\s*(\d{4})` builds `datetime(year, month,
day)` — raising `ValueError` for an out-of-range day or year — and overwrites
rules 1-2's result.  Rules 4-5 then narrow the range for "afternoon" or the
"any slot"/"any time"/"whole day"/"all day" keywords.

Dates: `dateToDay y m d` is the 0-based day index of a proleptic-Gregorian
date (0001-01-01 ↦ 0), so that day's midnight instant is `dateToDay y m d *
1440` minutes.  0001-01-01 is a Monday, so Python's `weekday()` (Monday = 0)
of day number `n` is `n % 7`.
-/

/-- Gregorian leap year test. -/
def isLeap (y : Nat) : Bool := (y % 4 == 0 && y % 100 != 0) || y % 400 == 0

/-- Length of month `m` (1-12) in year `y`, as `datetime` validates it. -/
def daysInMonth (y m : Nat) : Nat :=
  if m = 2 then (if isLeap y then 29 else 28)
  else if m = 4 || m = 6 || m = 9 || m = 11 then 30
  else 31

/-- Days strictly before January 1 of year `y` (proleptic Gregorian, year ≥ 1). -/
def daysBeforeYear (y : Nat) : Nat :=
  365 * (y - 1) + (y - 1) / 4 - (y - 1) / 100 + (y - 1) / 400

/-- Days of year `y` strictly before the first of month `m`. -/
def daysBeforeMonth (y m : Nat) : Nat :=
  (List.range (m - 1)).foldl (fun acc i => acc + daysInMonth y (i + 1)) 0

/-- 0-based day index of a date (0001-01-01 ↦ 0). -/
def dateToDay (y m d : Nat) : Nat := daysBeforeYear y + daysBeforeMonth y m + (d - 1)

/-- The range check `datetime(year, month, day)` performs (month is 1-12 by
construction here, and a 4-digit year is already ≤ 9999 = MAXYEAR). -/
def dateValid (y m d : Nat) : Prop := 1 ≤ y ∧ 1 ≤ d ∧ d ≤ daysInMonth y m

instance (y m d : Nat) : Decidable (dateValid y m d) := by
  unfold dateValid; infer_instance

/-- Greedy `\s*`: consume leading whitespace. -/
def skipSpaces : List Char → List Char
  | [] => []
  | c :: rest => if isSpaceChar c then skipSpaces rest else c :: rest

/-- The month-name alternation of the date pattern, with its numeric value. -/
def monthNames : List (List Char × Nat) :=
  [("january".data, 1), ("february".data, 2), ("march".data, 3), ("april".data, 4),
   ("may".data, 5), ("june".data, 6), ("july".data, 7), ("august".data, 8),
   ("september".data, 9), ("october".data, 10), ("november".data, 11), ("december".data, 12)]

/-- Match one month name at the head of `l`. -/
def matchMonthAt (l : List Char) : Option (Nat × List Char) :=
  monthNames.findSome? fun nm =>
    if hasPrefixChars nm.1 l then some (nm.2, l.drop nm.1.length) else none

/-- `\s+`: at least one whitespace character, then greedy skip. -/
def matchSpaces1 : List Char → Option (List Char)
  | [] => none
  | c :: rest => if isSpaceChar c then some (skipSpaces rest) else none

/-- `(\d{1,2}),` with the regex's greedy backtracking: two digits then a comma,
else one digit then a comma. -/
def matchDayComma : List Char → Option (Nat × List Char)
  | d1 :: d2 :: c :: r =>
    if d1.isDigit && d2.isDigit && c = ',' then some (10 * digitVal d1 + digitVal d2, r)
    else if d1.isDigit && d2 = ',' then some (digitVal d1, c :: r)
    else none
  | [d1, d2] => if d1.isDigit && d2 = ',' then some (digitVal d1, []) else none
  | _ => none

/-- `(\d{4})`: exactly four digits. -/
def matchYear : List Char → Option (Nat × List Char)
  | a :: b :: c :: d :: r =>
    if a.isDigit && b.isDigit && c.isDigit && d.isDigit then
      some (1000 * digitVal a + 100 * digitVal b + 10 * digitVal c + digitVal d, r)
    else none
  | _ => none

/-- The date pattern anchored at the head of `l`: `(month)\s+(\d{1,2}),\s*(\d{4})`,
yielding `(month, day, year)`. -/
def dateMatchAt (l : List Char) : Option (Nat × Nat × Nat) :=
  match matchMonthAt l with
  | none => none
  | some (m, r1) =>
    match matchSpaces1 r1 with
    | none => none
    | some r2 =>
      match matchDayComma r2 with
      | none => none
      | some (d, r3) =>
        match matchYear (skipSpaces r3) with
        | none => none
        | some (y, _) => some (m, d, y)

/-- `re.search(date_pattern, message)`: the leftmost position where the date
pattern matches. -/
def dateSearch : List Char → Option (Nat × Nat × Nat)
  | [] => none
  | c :: r =>
    match dateMatchAt (c :: r) with
    | some m => some m
    | none => dateSearch r

/-- `day_map` in Python insertion order: keyword and the day it resolves to.
`(k - today.weekday()) % 7` is the offset to the next weekday `k` (0 = Monday),
today included. -/
def dayKeywords (today : Nat) : List (List Char × Nat) :=
  [("today".data, today), ("tomorrow".data, today + 1),
   ("monday".data, today + (0 + 7 - today % 7) % 7),
   ("tuesday".data, today + (1 + 7 - today % 7) % 7),
   ("wednesday".data, today + (2 + 7 - today % 7) % 7),
   ("thursday".data, today + (3 + 7 - today % 7) % 7),
   ("friday".data, today + (4 + 7 - today % 7) % 7),
   ("saturday".data, today + (5 + 7 - today % 7) % 7),
   ("sunday".data, today + (6 + 7 - today % 7) % 7)]

/-- Rules 1-2: the first `day_map` key contained in the message (loop with
`break`), as a day index. -/
def findDayKeyword (today : Nat) (msg : List Char) : Option Nat :=
  (dayKeywords today).findSome? fun kw => if isSubstr kw.1 msg then some kw.2 else none

/-- Rules 1-3 of `parse_user_date`: the resolved day's midnight instant, with
rule 3 — when its pattern matches — unconditionally overwriting rules 1-2, and
raising (`Except.error`) on an invalid explicit date. -/
def resolveDay (today : Nat) (msg : List Char) : Except Unit (Option Nat) :=
  match dateSearch msg with
  | some (m, d, y) =>
    if dateValid y m d then Except.ok (some (dateToDay y m d * 1440)) else Except.error ()
  | none => Except.ok ((findDayKeyword today msg).map fun d => d * 1440)

/-- `"any slot" in message or "any time" in message or "whole day" in message
or "all day" in message` (app.py line 137). -/
def anyTimeKw (msg : List Char) : Bool :=
  isSubstr ("any slot".data) msg || isSubstr ("any time".data) msg ||
    isSubstr ("whole day".data) msg || isSubstr ("all day".data) msg

/-- Rules 4-5 of `parse_user_date`: narrow the resolved range for "afternoon"
(12:00-18:00) or for the any-time keywords (09:00-18:00, on the resolved date
or else tomorrow).  `.replace(hour=h, minute=0, …)` on a midnight instant is
`day * 1440 + 60 * h`. -/
def adjustRange (today : Nat) (msg : List Char) :
    Option (Nat × Nat) → Option (Nat × Nat)
  | some (s, e) =>
    if isSubstr ("afternoon".data) msg then
      some (s / 1440 * 1440 + 720, s / 1440 * 1440 + 1080)
    else if anyTimeKw msg then
      some (s / 1440 * 1440 + 540, s / 1440 * 1440 + 1080)
    else some (s, e)
  | none =>
    if anyTimeKw msg then
      some ((today + 1) * 1440 + 540, (today + 1) * 1440 + 1080)
    else none

/-- `parse_user_date(message)`: the optional `(start, end)` range, or a raised
`ValueError` (`Except.error`) for an invalid explicit date. -/
def parse_user_date (today : Nat) (msg : List Char) : Except Unit (Option (Nat × Nat)) :=
  (resolveDay today msg).map fun s? =>
    adjustRange today msg (s?.map fun s => (s, s + 1440))

/-- The caller's range resolution (`check_availability_node`, app.py lines
149-152): `parse_user_date`'s range, or tomorrow through +7 days when it
resolved nothing — and the uncaught `ValueError` when it raised. -/
def resolveQueryRange (today : Nat) (msg : List Char) : Except Unit (Nat × Nat) :=
  match parse_user_date today msg with
  | Except.error e => Except.error e
  | Except.ok (some (s, e)) => Except.ok (s, e)
  | Except.ok none => Except.ok ((today + 1) * 1440, (today + 8) * 1440)

/-- C6: for a month-name + day + year pattern whose day is invalid for the
month ("june 31, 2025"), `parse_user_date` does NOT surface a recoverable
parse failure: `datetime(2025, 6, 31)` raises `ValueError` (modelled as
`Except.error`), the caller `check_availability_node` does not catch it, and
no fallback to the default tomorrow..+7-days range happens — the resolved
query range is the propagated exception, for every value of today's date. -/
theorem invalid_date_crash (today : Nat) :
    dateSearch ("june 31, 2025".data) = some (6, 31, 2025)
    ∧ daysInMonth 2025 6 = 30
    ∧ parse_user_date today ("june 31, 2025".data) = Except.error ()
    ∧ resolveQueryRange today ("june 31, 2025".data) = Except.error () :=
  ⟨rfl, rfl, rfl, rfl⟩

/-- C8 counterexample: the message "monday june 26, 2025 afternoon" contains
both a weekday keyword and an explicit month-name + day + year pattern, yet
`parse_user_date` returns the 12:00-18:00 afternoon narrowing of June 26,
2025 — not the explicit date's full 24-hour range, whose start would be the
midnight instant `dateToDay 2025 6 26 * 1440`. -/
theorem date_override_counterexample :
    parse_user_date 0 ("monday june 26, 2025 afternoon".data)
      = Except.ok (some (dateToDay 2025 6 26 * 1440 + 720, dateToDay 2025 6 26 * 1440 + 1080))
    ∧ isSubstr ("monday".data) ("monday june 26, 2025 afternoon".data) = true
    ∧ dateSearch ("monday june 26, 2025 afternoon".data) = some (6, 26, 2025)
    ∧ dateToDay 2025 6 26 * 1440 + 720 ≠ dateToDay 2025 6 26 * 1440 :=
  ⟨rfl, rfl, rfl, by omega⟩

/-- C8 (amended): whenever the explicit month-name + day + year pattern matches
with a valid date, rule 3 unconditionally overwrites rules 1-2's resolved
range — regardless of any weekday/today/tomorrow keyword — so rules 1-3 yield
exactly the explicit date's full 24-hour range; the subsequent rules 4-5
("afternoon", any-time keywords) may then narrow it, and in their absence the
final result is that full 24-hour range. -/
theorem date_override_spec (today : Nat) (msg : List Char) (m d y : Nat)
    (hs : dateSearch msg = some (m, d, y)) (hv : dateValid y m d) :
    resolveDay today msg = Except.ok (some (dateToDay y m d * 1440))
    ∧ parse_user_date today msg =
        Except.ok (adjustRange today msg
          (some (dateToDay y m d * 1440, dateToDay y m d * 1440 + 1440)))
    ∧ (isSubstr ("afternoon".data) msg = false → anyTimeKw msg = false →
        parse_user_date today msg =
          Except.ok (some (dateToDay y m d * 1440, dateToDay y m d * 1440 + 1440))) := by
  have h1 : resolveDay today msg = Except.ok (some (dateToDay y m d * 1440)) := by
    simp [resolveDay, hs, hv]
  refine ⟨h1, ?_, ?_⟩
  · simp [parse_user_date, h1, Except.map, Option.map]
  · intro ha hk
    simp [parse_user_date, h1, adjustRange, ha, hk, Except.map, Option.map]

/-- Concrete instance of `date_override_spec`: "june 26, 2025" resolves to the
full 24-hour range of June 26, 2025. -/
theorem date_override_spec_witness :
    parse_user_date 0 ("june 26, 2025".data)
      = Except.ok (some (dateToDay 2025 6 26 * 1440, dateToDay 2025 6 26 * 1440 + 1440)) :=
  (date_override_spec 0 ("june 26, 2025".data) 6 26 2025 rfl (by decide)).2.2 rfl rfl

/-!
## Suggestion-mode slot matcher (`suggest_slots`, app.py lines 199-227)

`re.finditer(r'(\d{1,2})(?::(\d{2}))?\s*(am|pm)', message)` scans the message
left to right for non-overlapping, leftmost matches.  Inside one attempt the
only productive backtracking is the greedy `\d{1,2}` falling back from two
digits to one: a shortened `\s*` would have to match `am|pm` at a whitespace
character, and dropping a fully matched `(?::(\d{2}))?` leaves `:` where
`\s*(am|pm)` must match — both always fail.  Each mention is converted to a
24-hour value (pm adds 12 except for 12pm; 12am becomes 0; the minutes group
is ignored by the code), the priority subset keeps the slots whose local hour
is mentioned, and a non-empty priority subset replaces the full set; the
first five of the resulting list are surfaced.
-/

/-- `(am|pm)` at the head of `l`; `true` means pm. -/
def matchAmPm : List Char → Option (Bool × List Char)
  | 'a' :: 'm' :: rest => some (false, rest)
  | 'p' :: 'm' :: rest => some (true, rest)
  | _ => none

/-- `(?::(\d{2}))?`: consume `:` plus two digits when present (the group's
captured minutes are never read by the code). -/
def matchOptColon : List Char → List Char
  | ':' :: d1 :: d2 :: rest =>
    if d1.isDigit && d2.isDigit then rest else ':' :: d1 :: d2 :: rest
  | l => l

/-- After the hour digits: optional `:mm`, greedy `\s*`, then `am|pm`. -/
def matchMeridiem (hr : Nat) (l : List Char) : Option (Nat × Bool × List Char) :=
  match matchAmPm (skipSpaces (matchOptColon l)) with
  | some (pm, rest) => some (hr, pm, rest)
  | none => none

/-- One attempt of the time pattern anchored at the head of the list, with
`\d{1,2}`'s greedy two-then-one-digit backtracking. -/
def matchTimeAt : List Char → Option (Nat × Bool × List Char)
  | c1 :: c2 :: rest =>
    if c1.isDigit && c2.isDigit then
      match matchMeridiem (10 * digitVal c1 + digitVal c2) rest with
      | some r => some r
      | none => matchMeridiem (digitVal c1) (c2 :: rest)
    else if c1.isDigit then matchMeridiem (digitVal c1) (c2 :: rest)
    else none
  | [c1] => if c1.isDigit then matchMeridiem (digitVal c1) [] else none
  | [] => none

/-- `re.finditer`: scan left to right, resuming after each match; every step
consumes at least one character, so the message length is enough fuel. -/
def findTimesF : Nat → List Char → List (Nat × Bool)
  | 0, _ => []
  | _ + 1, [] => []
  | fuel + 1, c :: rest =>
    match matchTimeAt (c :: rest) with
    | some (h, pm, r) => (h, pm) :: findTimesF fuel r
    | none => findTimesF fuel rest

/-- All `(hour, is-pm)` mentions of the message, in scan order. -/
def findTimes (msg : List Char) : List (Nat × Bool) := findTimesF msg.length msg

/-- The 12-hour → 24-hour conversion of app.py lines 203-208. -/
def hourTo24 (h : Nat) (pm : Bool) : Nat :=
  if pm ∧ h ≠ 12 then h + 12
  else if ¬pm ∧ h = 12 then 0
  else h

/-- `requested_hours`: every mentioned hour, converted to 24-hour form. -/
def requestedHours (msg : List Char) : List Nat :=
  (findTimes msg).map fun p => hourTo24 p.1 p.2

/-- `prioritized_slots`: built only when hours were mentioned; keeps, in
original order, the slots whose Asia/Kolkata hour is a mentioned hour. -/
def prioritizedSlots (slots : List Nat) (msg : List Char) : List Nat :=
  if requestedHours msg = [] then []
  else slots.filter fun s => (requestedHours msg).contains (istHour s)

/-- `filtered_slots` (app.py lines 220-222): the priority subset when
non-empty; otherwise the full set, narrowed to business hours when an
"anytime"/"whole day"/"all day"/"any slot" keyword occurs. -/
def filteredSlots (slots : List Nat) (msg : List Char) : List Nat :=
  let p := prioritizedSlots slots msg
  if p = [] then
    if isSubstr ("anytime".data) msg || isSubstr ("whole day".data) msg ||
        isSubstr ("all day".data) msg || isSubstr ("any slot".data) msg then
      slots.filter fun s => decide (9 ≤ istHour s) && decide (istHour s < 18)
    else slots
  else p

/-!
## Conversation layer (app.py handlers and LangGraph workflow)

Each handler is a pure function of the (already `.strip().lower()`-processed)
last user message, the relevant state fields, and the outcomes of its external
calls, returning the assistant turns it appends plus the trace of outward
calls it made.  Assistant turns are a tagged type: the fixed reply strings of
app.py are recovered by `fixedText`, dynamic ones carry their payload (the
exact `strftime` rendering of instants inside prompts is presentation glue and
is not re-modelled; the instants themselves are).
-/

/-- An upcoming calendar event as `cancel_booking` reads it (id, summary and
start instant in minutes). -/
structure CalEvent where
  id : String
  summary : String
  start : Nat

deriving instance DecidableEq for CalEvent

/-- One assistant turn appended by a handler. -/
inductive Msg
  | hi
  | goodMorning
  | noSlotsFound
  | noMatchingSlots
  | availableSlots (shown : List Nat)
  | llmReply (text : String)
  | noSlotsToConfirm
  | bookingConfirmed (info : String)
  | noUpcomingBookings
  | selectEventPrompt (events : List CalEvent)
  | specifyEventPrompt (events : List CalEvent)
  | cancelledBooking (ev : CalEvent)
  | errIntent (e : String)
  | errAvail (e : String)
  | errSuggest (e : String)
  | errConfirm (e : String)
  | errBook (e : String)
  | errFetchEvents (e : String)
  | errCancel (e : String)

deriving instance DecidableEq for Msg

/-- The literal reply text of the turns app.py builds from a fixed string. -/
def fixedText : Msg → Option String
  | Msg.hi => some "Hi!"
  | Msg.goodMorning => some "Good morning!"
  | Msg.noSlotsFound => some "No available slots found. Please try a different time or date."
  | Msg.noMatchingSlots => some "No matching slots found. Would you like to see other time ranges?"
  | Msg.noSlotsToConfirm => some "No available slots to confirm. Please check availability first."
  | Msg.noUpcomingBookings => some "No upcoming bookings found."
  | _ => none

/-- One outward call of a turn, with the arguments that matter. -/
inductive ExtCall
  | llmIntent
  | llmSuggest (surfaced : List Nat)
  | llmConfirm (slot : Nat)
  | httpAvail (rangeStart rangeEnd : Nat)
  | httpBook (startT endT : Nat)
  | httpEvents
  | httpDelete (id : String)

deriving instance DecidableEq for ExtCall

/-- `identify_intent` (app.py lines 83-93): the stored intent is the stripped
model response verbatim on success, `"unclear"` only when the model call
raised (in which case an error turn is also appended). -/
def identify_intent (llmR : Except String String) : String × List Msg :=
  match llmR with
  | Except.ok r => (pyStrip r, [])
  | Except.error e => ("unclear", [Msg.errIntent e])

/-- `route` (app.py lines 352-364). -/
def route (intent : String) : String :=
  if intent = "book_appointment" then "check_availability"
  else if intent = "check_availability" then "check_availability"
  else if intent = "confirm_booking" then "confirm_booking"
  else if intent = "cancel" then "cancel"
  else "suggest_slots"

/-- `any(greet in message for greet in ["hi", "hello", "hey"])`. -/
def greetingHit (msg : List Char) : Bool :=
  ["hi".data, "hello".data, "hey".data].any fun g => isSubstr g msg

/-- `suggest_slots` (app.py lines 177-238): greeting short-circuits, then the
empty-slot reply, then the priority/filter logic with the first five slots
surfaced to the suggestion model call. -/
def suggest_slots (slots : List Nat) (msg : List Char) (nowHour : Nat)
    (llm : Except String String) : List Msg × List ExtCall :=
  if greetingHit msg then ([Msg.hi], [])
  else if isSubstr ("good morning".data) msg && decide (nowHour < 12) then
    ([Msg.goodMorning], [])
  else if slots = [] then ([Msg.noSlotsFound], [])
  else
    let surfaced := (filteredSlots slots msg).take 5
    if surfaced = [] then ([Msg.noMatchingSlots], [])
    else
      match llm with
      | Except.ok r => ([Msg.llmReply (pyStrip r)], [ExtCall.llmSuggest surfaced])
      | Except.error e => ([Msg.errSuggest e], [ExtCall.llmSuggest surfaced])

/-- Step (1) of booking selection (app.py lines 249-252): the first 1-based
index `i` with `str(i) in message`, `"slot i" in message`, or `"first" in
message` for `i = 1`. -/
def indexSelectGo (msg : List Char) : List Nat → Nat → Option Nat
  | [], _ => none
  | s :: rest, i =>
    if isSubstr (toString i).data msg || isSubstr (("slot " ++ toString i).data) msg ||
        (isSubstr ("first".data) msg && i == 1) then some s
    else indexSelectGo msg rest (i + 1)

/-- Booking selection by literal index. -/
def indexSelect (slots : List Nat) (msg : List Char) : Option Nat :=
  indexSelectGo msg slots 1

/-- Step (2) of booking selection (app.py lines 257-262): the first slot whose
local hour equals the fuzzily parsed hour and whose local minute is within 15
of the parsed minute. -/
def timeSelect (slots : List Nat) (hr mn : Nat) : Option Nat :=
  slots.find? fun s =>
    istHour s == hr && decide (max (istMinute s) mn - min (istMinute s) mn ≤ 15)

/-- The slot resolution of `confirm_booking`: index match, else fuzzy time
match (the oracle `fuzzy` is `dateutil.parser.parse(message, fuzzy=True)`'s
outcome: `none` when it raised), else the first slot. -/
def selectSlot (slots : List Nat) (msg : List Char) (fuzzy : Option (Nat × Nat)) : Option Nat :=
  match indexSelect slots msg with
  | some s => some s
  | none =>
    match fuzzy with
    | some hm =>
      match timeSelect slots hm.1 hm.2 with
      | some s => some s
      | none => slots.head?
    | none => slots.head?

/-- `confirm_booking` (app.py lines 240-304): resolve a slot (or report that
none is available), append the model's confirmation turn — produced BEFORE the
calendar insert — then attempt the insert and append its outcome. -/
def confirm_booking (slots : List Nat) (msg : List Char) (fuzzy : Option (Nat × Nat))
    (llmC : Except String String) (bookR : Except String String) : List Msg × List ExtCall :=
  match selectSlot slots msg fuzzy with
  | none => ([Msg.noSlotsToConfirm], [])
  | some s =>
    match llmC with
    | Except.error e => ([Msg.errConfirm e], [ExtCall.llmConfirm s])
    | Except.ok r =>
      match bookR with
      | Except.ok info =>
        ([Msg.llmReply (pyStrip r), Msg.bookingConfirmed info],
         [ExtCall.llmConfirm s, ExtCall.httpBook s (s + 30)])
      | Except.error e =>
        ([Msg.llmReply (pyStrip r), Msg.errBook e],
         [ExtCall.llmConfirm s, ExtCall.httpBook s (s + 30)])

/-- The `for i in range(len(events)): if str(i+1) in message` selection of
`cancel_booking`. -/
def findMentionedEvent (msg : List Char) (events : List CalEvent) : Option CalEvent :=
  (events.enum.find? fun ie => isSubstr (toString (ie.1 + 1)).data msg).map fun ie => ie.2

/-- `cancel_booking` (app.py lines 306-350): fetch upcoming events, report
when none exist, otherwise list them or delete the selected one. -/
def cancel_booking (msg : List Char) (eventsR : Except String (List CalEvent))
    (delR : Except String String) : List Msg × List ExtCall :=
  match eventsR with
  | Except.error e => ([Msg.errFetchEvents e], [ExtCall.httpEvents])
  | Except.ok events =>
    if events = [] then ([Msg.noUpcomingBookings], [ExtCall.httpEvents])
    else if ¬isSubstr ("select".data) msg ∧
        ¬((List.range events.length).any fun i => isSubstr (toString (i + 1)).data msg) then
      ([Msg.selectEventPrompt events], [ExtCall.httpEvents])
    else
      match findMentionedEvent msg events with
      | none => ([Msg.specifyEventPrompt events], [ExtCall.httpEvents])
      | some ev =>
        match delR with
        | Except.ok _ => ([Msg.cancelledBooking ev], [ExtCall.httpEvents, ExtCall.httpDelete ev.id])
        | Except.error e => ([Msg.errCancel e], [ExtCall.httpEvents, ExtCall.httpDelete ev.id])

/-- `check_availability_node` (app.py lines 143-175): resolve the query range
(the parser's `ValueError` propagates uncaught), call `GET /availability`, and
either store the slots and show the first five or append the HTTP error. -/
def check_availability_node (today : Nat) (msg : List Char)
    (avail : Except String (List Nat)) :
    Except Unit (List Msg × List Nat × List ExtCall) :=
  match resolveQueryRange today msg with
  | Except.error e => Except.error e
  | Except.ok (s, e) =>
    match avail with
    | Except.ok slots =>
      Except.ok ([Msg.availableSlots (slots.take 5)], slots, [ExtCall.httpAvail s e])
    | Except.error err => Except.ok ([Msg.errAvail err], [], [ExtCall.httpAvail s e])

/-- The outcomes of every external call a turn may make, plus the ambient
clock values the handlers read. -/
structure Oracles where
  intentLlm : Except String String
  avail : Except String (List Nat)
  suggestLlm : Except String String
  confirmLlm : Except String String
  bookR : Except String String
  eventsR : Except String (List CalEvent)
  delR : Except String String
  fuzzy : Option (Nat × Nat)
  nowHour : Nat
  today : Nat

/-- The conditional-edge dispatch of the compiled graph (app.py lines
374-388): route on the stored intent, run the handler, chain availability
into suggestion. -/
def dispatch (o : Oracles) (lmsg : List Char) (slots0 : List Nat) (intent : String)
    (ms1 : List Msg) : Except Unit (List Msg) × List ExtCall :=
  if route intent = "check_availability" then
    match check_availability_node o.today lmsg o.avail with
    | Except.error _ => (Except.error (), [])
    | Except.ok (ms2, slots, tr2) =>
      let r3 := suggest_slots slots lmsg o.nowHour o.suggestLlm
      (Except.ok (ms1 ++ ms2 ++ r3.1), tr2 ++ r3.2)
  else if route intent = "confirm_booking" then
    let r := confirm_booking slots0 lmsg o.fuzzy o.confirmLlm o.bookR
    (Except.ok (ms1 ++ r.1), r.2)
  else if route intent = "cancel" then
    let r := cancel_booking lmsg o.eventsR o.delR
    (Except.ok (ms1 ++ r.1), r.2)
  else
    let r := suggest_slots slots0 lmsg o.nowHour o.suggestLlm
    (Except.ok (ms1 ++ r.1), r.2)

/-- One turn of the compiled LangGraph workflow: the entry point is
`identify_intent` — the intent-classification model call happens first, on
every turn — then the routed handler runs on the `.strip().lower()`-processed
message.  Returns the appended turns (or the turn-crashing exception) and the
trace of outward calls in order. -/
def pipeline (o : Oracles) (msg : List Char) (slots0 : List Nat) :
    Except Unit (List Msg) × List ExtCall :=
  let r1 := identify_intent o.intentLlm
  let hres := dispatch o (lowerStrip msg) slots0 r1.1 r1.2
  (hres.1, ExtCall.llmIntent :: hres.2)

/-- C2: in suggestion mode every time mention `\d{1,2}(::\d{2})?(am|pm)` is
converted to a 24-hour value (pm adds 12 except for 12pm; 12am becomes 0); the
priority subset is exactly the slots, in original order, whose Asia/Kolkata
hour equals some mentioned hour; a non-empty priority subset replaces the full
set, and at most the first 5 of the presented set are surfaced to the
suggestion model.  In particular, slots at 10:00/14:00/16:00 IST with text
"book at 2pm" give priority subset exactly the 14:00 slot. -/
theorem suggestion_priority_spec (slots : List Nat) (msg : List Char) :
    prioritizedSlots slots msg
      = slots.filter (fun s => (requestedHours msg).contains (istHour s))
    ∧ (prioritizedSlots slots msg).Sublist slots
    ∧ (∀ s, s ∈ prioritizedSlots slots msg ↔ s ∈ slots ∧ istHour s ∈ requestedHours msg)
    ∧ (prioritizedSlots slots msg ≠ [] → filteredSlots slots msg = prioritizedSlots slots msg)
    ∧ (∀ h, hourTo24 h true = if h = 12 then 12 else h + 12)
    ∧ (∀ h, hourTo24 h false = if h = 12 then 0 else h)
    ∧ (∀ nowHour llm, (suggest_slots slots msg nowHour llm).2 = []
        ∨ (suggest_slots slots msg nowHour llm).2
          = [ExtCall.llmSuggest ((filteredSlots slots msg).take 5)])
    ∧ requestedHours ("book at 2pm".data) = [14]
    ∧ prioritizedSlots [270, 510, 630] ("book at 2pm".data) = [510]
    ∧ istHour 510 = 14 := by
  have hfil : prioritizedSlots slots msg
      = slots.filter (fun s => (requestedHours msg).contains (istHour s)) := by
    by_cases h : requestedHours msg = []
    · simp [prioritizedSlots, h, List.contains, List.elem_iff]
    · simp [prioritizedSlots, h]
  refine ⟨hfil, ?_, ?_, ?_, ?_, ?_, ?_, rfl, rfl, rfl⟩
  · rw [hfil]; exact List.filter_sublist slots
  · intro s
    rw [hfil]
    simp [List.mem_filter, List.contains, List.elem_iff]
  · intro h
    simp only [filteredSlots]
    simp [h]
  · intro h
    by_cases h12 : h = 12 <;> simp [hourTo24, h12]
  · intro h
    by_cases h12 : h = 12 <;> simp [hourTo24, h12]
  · intro nowHour llm
    simp only [suggest_slots]
    by_cases h1 : greetingHit msg
    · simp [h1]
    · by_cases h2 : isSubstr ("good morning".data) msg && decide (nowHour < 12)
      · simp [h1, h2]
      · by_cases h3 : slots = []
        · simp [h1, h2, h3]
        · by_cases h4 : (filteredSlots slots msg).take 5 = []
          · simp [h1, h2, h3, h4]
          · cases llm <;> simp [h1, h2, h3, h4]

/-- C3: booking selection tries, in order, (1) a literal 1-based index
mention, (2) the fuzzy time parse accepted exactly when a candidate's local
hour equals the parsed hour and its local minute is within 15 of the parsed
minute, (3) default to the first candidate.  With 3 candidates and text "2"
the selection is the second candidate (0-based index 1) whatever the fuzzy
parser would say, and with text containing no number or time content it is the
first candidate. -/
theorem booking_selection_spec :
    (∀ slots msg fuzzy s, indexSelect slots msg = some s → selectSlot slots msg fuzzy = some s)
    ∧ (∀ slots msg hr mn s, indexSelect slots msg = none → timeSelect slots hr mn = some s →
        selectSlot slots msg (some (hr, mn)) = some s)
    ∧ (∀ slots hr mn s, timeSelect slots hr mn = some s →
        s ∈ slots ∧ istHour s = hr ∧ max (istMinute s) mn - min (istMinute s) mn ≤ 15)
    ∧ (∀ slots msg hr mn, indexSelect slots msg = none → timeSelect slots hr mn = none →
        selectSlot slots msg (some (hr, mn)) = slots.head?)
    ∧ (∀ slots msg, indexSelect slots msg = none → selectSlot slots msg none = slots.head?)
    ∧ (∀ a b c fuzzy, selectSlot [a, b, c] ("2".data) fuzzy = some b)
    ∧ (∀ a b c, selectSlot [a, b, c] ("please book the meeting".data) none = some a) := by
  refine ⟨?_, ?_, ?_, ?_, ?_, fun a b c fuzzy => rfl, fun a b c => rfl⟩
  · intro slots msg fuzzy s h
    simp [selectSlot, h]
  · intro slots msg hr mn s h1 h2
    simp [selectSlot, h1, h2]
  · intro slots hr mn s h
    have hmem := List.mem_of_find?_eq_some h
    have hp := List.find?_some h
    simp only [Bool.and_eq_true, beq_iff_eq, decide_eq_true_eq] at hp
    exact ⟨hmem, hp.1, hp.2⟩
  · intro slots msg hr mn h1 h2
    simp [selectSlot, h1, h2]
  · intro slots msg h1
    simp [selectSlot, h1]

/-- C4: with an empty candidate list neither selection mode defaults or
performs a side effect: booking mode appends only the "No available slots to
confirm" turn with no model or calendar call, and cancellation with zero
upcoming events yields exactly the turn "No upcoming bookings found." after
the single fetch, with no further prompt and no deletion — including through
the whole pipeline for a "cancel"-classified message. -/
theorem empty_candidates_spec :
    (∀ msg fuzzy llmC bookR,
        confirm_booking [] msg fuzzy llmC bookR = ([Msg.noSlotsToConfirm], []))
    ∧ (∀ msg delR,
        cancel_booking msg (Except.ok []) delR = ([Msg.noUpcomingBookings], [ExtCall.httpEvents]))
    ∧ fixedText Msg.noUpcomingBookings = some "No upcoming bookings found."
    ∧ fixedText Msg.noSlotsToConfirm
      = some "No available slots to confirm. Please check availability first."
    ∧ (∀ o msg slots0, o.intentLlm = Except.ok "cancel" → o.eventsR = Except.ok [] →
        pipeline o msg slots0
          = (Except.ok [Msg.noUpcomingBookings], [ExtCall.llmIntent, ExtCall.httpEvents])) := by
  refine ⟨?_, fun msg delR => rfl, rfl, rfl, ?_⟩
  · intro msg fuzzy llmC bookR
    cases fuzzy <;> rfl
  · intro o msg slots0 h1 h2
    have hps : pyStrip "cancel" = "cancel" := rfl
    simp [pipeline, identify_intent, h1, dispatch, route, hps, cancel_booking, h2]

/-- C5 counterexample: for the pure greeting message "hi" the workflow still
invokes the intent-classification model call — the trace of the turn contains
(indeed is exactly) the intent call — because the entry point of the compiled
graph is `identify_intent`; the greeting reply is produced only afterwards,
inside the routed suggestion handler.  This refutes the claim that the
greeting check runs and short-circuits before intent classification. -/
theorem greeting_shortcircuit_counterexample :
    ExtCall.llmIntent ∈ (pipeline ⟨Except.ok "unclear", Except.ok [], Except.ok "ok",
        Except.ok "ok", Except.ok "ok", Except.ok [], Except.ok "ok", none, 10, 0⟩
        ("hi".data) []).2
    ∧ (pipeline ⟨Except.ok "unclear", Except.ok [], Except.ok "ok", Except.ok "ok",
        Except.ok "ok", Except.ok [], Except.ok "ok", none, 10, 0⟩ ("hi".data) [])
      = (Except.ok [Msg.hi], [ExtCall.llmIntent]) :=
  ⟨List.mem_singleton.mpr rfl, rfl⟩

/-- C5 (amended): the greeting short-circuit lives inside the suggestion
handler, after intent classification: every turn's trace begins with the
intent-classification model call, and when the classified intent routes to the
suggestion handler and the message is a pure greeting, the turn replies "Hi!"
with the intent call as its only external call — the greeting check
short-circuits the suggestion model call, not the intent router. -/
theorem greeting_after_intent_spec (o : Oracles) (msg : List Char) (slots0 : List Nat)
    (r : String)
    (hr : o.intentLlm = Except.ok r)
    (hroute : route (pyStrip r) = "suggest_slots")
    (hg : greetingHit (lowerStrip msg) = true) :
    pipeline o msg slots0 = (Except.ok [Msg.hi], [ExtCall.llmIntent])
    ∧ (∀ o2 msg2 slots2, (pipeline o2 msg2 slots2).2.head? = some ExtCall.llmIntent)
    ∧ (∀ o2 msg2 slots2 r2, o2.intentLlm = Except.ok r2 →
        route (pyStrip r2) = "suggest_slots" →
        greetingHit (lowerStrip msg2) = false →
        isSubstr ("good morning".data) (lowerStrip msg2) = true → o2.nowHour < 12 →
        pipeline o2 msg2 slots2 = (Except.ok [Msg.goodMorning], [ExtCall.llmIntent])) := by
  refine ⟨?_, ?_, ?_⟩
  · simp [pipeline, identify_intent, hr, dispatch, hroute, suggest_slots, hg]
  · intro o2 msg2 slots2
    rfl
  · intro o2 msg2 slots2 r2 hr2 hroute2 hgh hgm hnow
    simp [pipeline, identify_intent, hr2, dispatch, hroute2, suggest_slots, hgh, hgm, hnow]

/-- Concrete instance of `greeting_after_intent_spec`: the greeting "hello"
with an "unclear" classification yields the "Hi!" reply after exactly the
intent call. -/
theorem greeting_after_intent_witness :
    pipeline ⟨Except.ok "unclear", Except.ok [], Except.ok "ok", Except.ok "ok",
        Except.ok "ok", Except.ok [], Except.ok "ok", none, 9, 0⟩ ("hello".data) []
      = (Except.ok [Msg.hi], [ExtCall.llmIntent]) :=
  (greeting_after_intent_spec
    ⟨Except.ok "unclear", Except.ok [], Except.ok "ok", Except.ok "ok", Except.ok "ok",
     Except.ok [], Except.ok "ok", none, 9, 0⟩ ("hello".data) [] "unclear" rfl rfl rfl).1

/-- C7 counterexample: when the model replies "banana" the stored intent is
the verbatim string "banana", which is outside the closed intent set — the
classifier performs no normalization of in-band but out-of-set responses. -/
theorem intent_passthrough_counterexample :
    (identify_intent (Except.ok "banana")).1 = "banana"
    ∧ (["book_appointment", "check_availability", "confirm_booking", "cancel",
        "unclear"].contains "banana") = false :=
  ⟨rfl, by decide⟩

/-- C7 (amended): the classifier stores the stripped model response verbatim
on success and "unclear" only on a failed model call; normalization to the
closed set happens in routing instead — any stored intent outside the four
actionable intents (including "unclear" and arbitrary strings) routes to the
suggestion handler, so the routed handler is always one of the four nodes. -/
theorem intent_normalization_spec :
    (∀ e, (identify_intent (Except.error e)).1 = "unclear")
    ∧ (∀ r, (identify_intent (Except.ok r)).1 = pyStrip r)
    ∧ (∀ s, s ≠ "book_appointment" → s ≠ "check_availability" → s ≠ "confirm_booking" →
        s ≠ "cancel" → route s = "suggest_slots")
    ∧ route "unclear" = "suggest_slots"
    ∧ (∀ s, route s = "check_availability" ∨ route s = "confirm_booking" ∨
        route s = "cancel" ∨ route s = "suggest_slots") := by
  refine ⟨fun e => rfl, fun r => rfl, ?_, rfl, ?_⟩
  · intro s h1 h2 h3 h4
    simp [route, h1, h2, h3, h4]
  · intro s
    simp only [route]
    split_ifs <;> simp

/-- C9 counterexample: on a failed calendar insert the turn appends TWO
assistant messages, not exactly one: the model's confirmation turn (produced
before the insert) and then the insert-failure turn. -/
theorem booking_failure_counterexample :
    (confirm_booking [510] ("1".data) none (Except.ok "Your appointment is confirmed.")
        (Except.error "HTTP 500")).1
      = [Msg.llmReply "Your appointment is confirmed.", Msg.errBook "HTTP 500"]
    ∧ (confirm_booking [510] ("1".data) none (Except.ok "Your appointment is confirmed.")
        (Except.error "HTTP 500")).1.length = 2 :=
  ⟨rfl, rfl⟩

/-- C9 (amended): when the calendar insert fails, exactly one error turn
describing the failure is appended, with a single insert attempt (no retry)
and no "Booking confirmed" turn from the booking call — but it follows the
model's confirmation turn, which was already appended before the insert ran,
so the turn's appended messages are that confirmation plus the one failure
turn. -/
theorem booking_failure_spec (slots : List Nat) (msg : List Char)
    (fuzzy : Option (Nat × Nat)) (r e : String) (s : Nat)
    (hsel : selectSlot slots msg fuzzy = some s) :
    confirm_booking slots msg fuzzy (Except.ok r) (Except.error e)
      = ([Msg.llmReply (pyStrip r), Msg.errBook e],
         [ExtCall.llmConfirm s, ExtCall.httpBook s (s + 30)])
    ∧ (∀ info, Msg.bookingConfirmed info ∉
        (confirm_booking slots msg fuzzy (Except.ok r) (Except.error e)).1)
    ∧ ((confirm_booking slots msg fuzzy (Except.ok r) (Except.error e)).2.filter
        (fun c => match c with | ExtCall.httpBook _ _ => true | _ => false)).length = 1 := by
  have h1 : confirm_booking slots msg fuzzy (Except.ok r) (Except.error e)
      = ([Msg.llmReply (pyStrip r), Msg.errBook e],
         [ExtCall.llmConfirm s, ExtCall.httpBook s (s + 30)]) := by
    simp [confirm_booking, hsel]
  refine ⟨h1, ?_, ?_⟩
  · intro info
    rw [h1]
    simp
  · rw [h1]
    rfl

/-- Concrete instance of `booking_failure_spec`: one slot, defaulted
selection, model confirmation succeeded, insert failed. -/
theorem booking_failure_spec_witness :
    confirm_booking [510] ("book it".data) none (Except.ok "ok") (Except.error "boom")
      = ([Msg.llmReply "ok", Msg.errBook "boom"],
         [ExtCall.llmConfirm 510, ExtCall.httpBook 510 540]) :=
  (booking_failure_spec [510] ("book it".data) none "ok" "boom" 510 rfl).1

/-- C10: the greeting check of the suggestion handler is substring containment
on the lowercased message, so any message merely containing "hi", "hello" or
"hey" inside another word — such as "this afternoon", which contains "hi" —
makes the handler reply "Hi!" and return immediately, skipping slot suggestion
entirely even when candidate slots exist. -/
theorem greeting_substring_spec (slots : List Nat) (nowHour : Nat)
    (llm : Except String String) :
    (∀ msg, greetingHit msg = true → suggest_slots slots msg nowHour llm = ([Msg.hi], []))
    ∧ suggest_slots slots ("this afternoon".data) nowHour llm = ([Msg.hi], [])
    ∧ isSubstr ("hi".data) ("this afternoon".data) = true
    ∧ greetingHit ("this afternoon".data) = true
    ∧ fixedText Msg.hi = some "Hi!" := by
  refine ⟨?_, rfl, rfl, rfl, rfl⟩
  intro msg hg
  simp [suggest_slots, hg]

/-- Concrete instance of `greeting_substring_spec`: "no match this week" also
contains "hi" and is intercepted. -/
theorem greeting_substring_witness :
    suggest_slots [510] ("no match this week".data) 10 (Except.ok "ok") = ([Msg.hi], []) :=
  (greeting_substring_spec [510] 10 (Except.ok "ok")).1 ("no match this week".data) rfl

end TailorTalk
